import Mathlib

/-!
Verification development for the vertinfo JSON-RPC server.

The definitions below are a shallow embedding of `src/vertinfo.ts`
(the monolithic server), `src/lib/methods/getConfirmations.ts`
(the modular variant of one handler) and the rate limiter of the
modular variant. JSON numbers are modelled as integers (the server
never performs arithmetic on them; they only act as identifiers),
arbitrary-precision integers (JS bigint) as `Int`, time (Date.now)
as `Nat` milliseconds, and the key-value store as a function from
composite keys to optional values.
-/

namespace Vertinfo

/-- JSON values as decoded by JSON.parse: no bigint can occur here. -/
inductive Json where
  | null : Json
  | bool (b : Bool) : Json
  | num (n : Int) : Json
  | str (s : String) : Json
  | arr (elems : List Json) : Json
  | obj (fields : List (String × Json)) : Json
deriving Repr

/-- Values living in the key-value store and in results: JSON extended
with arbitrary-precision integers (JS bigint), which the serializer
must replace. -/
inductive RichValue where
  | null : RichValue
  | bool (b : Bool) : RichValue
  | num (n : Int) : RichValue
  | bigint (b : Int) : RichValue
  | str (s : String) : RichValue
  | arr (elems : List RichValue) : RichValue
  | obj (fields : List (String × RichValue)) : RichValue
deriving Repr

/-- A JSON-RPC id: string, number or null (type JsonRpcId in the source). -/
inductive RpcId where
  | str (s : String) : RpcId
  | num (n : Int) : RpcId
  | null : RpcId
deriving Repr, DecidableEq

/-- The error member of a JSON-RPC error response (jsonRpcSchema.errorObject). -/
structure ErrorObj where
  code : Int
  message : String
deriving Repr, DecidableEq

/-- The JSON-RPC response object the server emits. In the source the success
and error builders each construct a plain object that has either a result
member or an error member; we record both as options so that the invariant
that exactly one is present is a provable fact, not a typing artifact. -/
structure RpcResponseObj where
  result : Option RichValue
  error : Option ErrorObj
  id : RpcId
deriving Repr

/-- An HTTP response: status code plus the JSON-RPC body it wraps. -/
structure HttpResponse where
  status : Nat
  body : RpcResponseObj
deriving Repr

/-- A parsed JSON-RPC request (z.infer of jsonRpcSchema.request):
jsonrpc is necessarily the literal "2.0" so it is not stored. -/
structure RpcRequest where
  id : RpcId
  method : String
  params : List (String × Json)
deriving Repr

/-- Composite store-key components: strings and chain ids (numbers). -/
inductive KeyPart where
  | s (v : String) : KeyPart
  | n (v : Int) : KeyPart
deriving Repr, DecidableEq

/-- A composite key of the key-value store, e.g. ["econConf", chainId]. -/
abbrev Key := List KeyPart

/-- The key-value store read interface: get(key) yields a value or absence. -/
abbrev Store := Key → Option RichValue

/-- The rate-limit state: the map from client hostname to the last recorded
request time in milliseconds (lastRequestTimeMap in the source). -/
abbrev RateMap := List (String × Nat)

/-- Map.set semantics on the association-list model of lastRequestTimeMap:
replace the binding if the key is present, append it otherwise. -/
def setTime (host : String) (t : Nat) : RateMap → RateMap
  | [] => [(host, t)]
  | (h, v) :: rest =>
      if h = host then (host, t) :: rest else (h, v) :: setTime host t rest

/-- The rate window of the monolithic server (1000 ms in vertinfo.ts). -/
def window : Nat := 1000

/-- The rate window of the modular variant (200 ms in its rateLimit module). -/
def windowModular : Nat := 200

/-- The rateLimit function, parameterized by the window. It returns true when
the request must be rejected. Mirrors the source exactly: the lookup result
is tested for JS falsiness, so both an absent entry and a recorded time of 0
admit immediately; otherwise the request is rejected iff now minus the
recorded time (genuine integer subtraction, as in JS) is below the window. -/
def rateLimitW (w : Nat) (m : RateMap) (now : Nat) (host : String) : Bool :=
  match List.lookup host m with
  | none => false
  | some t => if t = 0 then false else decide ((now : Int) - (t : Int) < (w : Int))

/-- The monolithic rateLimit of vertinfo.ts (window 1000 ms). -/
def rateLimit (m : RateMap) (now : Nat) (host : String) : Bool :=
  rateLimitW window m now host

/-- The modular variant of rateLimit (window 200 ms). -/
def rateLimitModular (m : RateMap) (now : Nat) (host : String) : Bool :=
  rateLimitW windowModular m now host

/-- A single hexadecimal digit character, lowercase for values above nine,
as produced by Number and BigInt toString(16). -/
def hexChar (n : Nat) : Char :=
  if n < 10 then Char.ofNat (48 + n) else Char.ofNat (87 + n)

/-- Hexadecimal digits of n, most significant first; the fuel argument (any
bound at least n suffices) makes the recursion structural. -/
def natToHexAux : Nat → Nat → List Char
  | 0, _ => []
  | fuel + 1, n =>
      if n = 0 then [] else natToHexAux fuel (n / 16) ++ [hexChar (n % 16)]

/-- Hexadecimal rendering of a natural number, lowercase, no prefix. -/
def natToHex (n : Nat) : String :=
  if n = 0 then "0" else String.mk (natToHexAux n n)

/-- The toString(16) rendering of a JS bigint: hexadecimal digits of the
absolute value, preceded by a minus sign when negative. -/
def bigintToHex (b : Int) : String :=
  if b < 0 then "-" ++ natToHex b.natAbs else natToHex b.toNat

/-- The replacer of the source applied recursively, as JSON.stringify does:
every bigint anywhere in the value becomes the string 0x followed by its
toString(16) rendering; every other node is kept and its children are
transformed. -/
def applyReplacer : RichValue → RichValue
  | .null => .null
  | .bool b => .bool b
  | .num n => .num n
  | .bigint b => .str ("0x" ++ bigintToHex b)
  | .str s => .str s
  | .arr elems => .arr (elems.attach.map (fun e => applyReplacer e.1))
  | .obj fields =>
      .obj (fields.attach.map (fun f => (f.1.1, applyReplacer f.1.2)))
decreasing_by
  · simp only [RichValue.arr.sizeOf_spec]
    have := List.sizeOf_lt_of_mem e.2
    omega
  · simp only [RichValue.obj.sizeOf_spec]
    have h1 := List.sizeOf_lt_of_mem f.2
    have h2 : sizeOf f.1.2 < sizeOf f.1 := by
      obtain ⟨k, v⟩ := f.1
      simp only [Prod.mk.sizeOf_spec]
      omega
    omega

/-- Whether a bigint occurs anywhere in a value. -/
def hasBigint : RichValue → Bool
  | .null => false
  | .bool _ => false
  | .num _ => false
  | .bigint _ => true
  | .str _ => false
  | .arr elems => elems.attach.any (fun e => hasBigint e.1)
  | .obj fields => fields.attach.any (fun f => hasBigint f.1.2)
decreasing_by
  · simp only [RichValue.arr.sizeOf_spec]
    have := List.sizeOf_lt_of_mem e.2
    omega
  · simp only [RichValue.obj.sizeOf_spec]
    have h1 := List.sizeOf_lt_of_mem f.2
    have h2 : sizeOf f.1.2 < sizeOf f.1 := by
      obtain ⟨k, v⟩ := f.1
      simp only [Prod.mk.sizeOf_spec]
      omega
    omega

/-- The jsonRpcError builder: a body with an error member and no result
member, id defaulting to null when the caller passed none (id is optional
in the source and the builder applies id-nullish-coalescing-null), wrapped
with the given HTTP status. -/
def jsonRpcError (code : Int) (message : String) (status : Nat)
    (id : Option RpcId) : HttpResponse :=
  { status := status,
    body := { result := none,
              error := some { code := code, message := message },
              id := id.getD RpcId.null } }

/-- The jsonRpcResponse builder: HTTP 200, a body with a result member (the
result serialized through the bigint replacer) and no error member. -/
def jsonRpcResponse (result : RichValue) (id : RpcId) : HttpResponse :=
  { status := 200,
    body := { result := some (applyReplacer result),
              error := none,
              id := id } }

/-- The badParseError response: code -32700, HTTP 500, no id supplied. -/
def badParseError : HttpResponse :=
  jsonRpcError (-32700) "Parse error." 500 none

/-- The invalidParamsError response: code -32602, HTTP 500, carrying the
request id. -/
def invalidParamsError (id : RpcId) : HttpResponse :=
  jsonRpcError (-32602) "Invalid params." 500 (some id)

/-- The rateLimitError response: code -32005, HTTP 429, no id supplied. -/
def rateLimitError : HttpResponse :=
  jsonRpcError (-32005) "Rate limited." 429 none

/-- The badMethodError response: code -32601, HTTP 404, no id supplied. -/
def badMethodError : HttpResponse :=
  jsonRpcError (-32601) "Method not found." 404 none

/-- The chainIdOnlyParam schema: the params object must carry a chainId
member of number type; other members are ignored (zod strips them).
Returns the chainId on success. -/
def chainIdOnlyParam (params : List (String × Json)) : Option Int :=
  match List.lookup "chainId" params with
  | some (.num n) => some n
  | _ => none

/-- The getBurnStatusParam schema: the params object must carry a hash
member of string type; other members are ignored. -/
def getBurnStatusParam (params : List (String × Json)) : Option String :=
  match List.lookup "hash" params with
  | some (.str s) => some s
  | _ => none

/-- Parse a JSON value as a JSON-RPC id: string, number or null. -/
def parseId : Json → Option RpcId
  | .str s => some (.str s)
  | .num n => some (.num n)
  | .null => some .null
  | _ => none

/-- The envelope validation (jsonRpcSchema.request): the decoded JSON must be
an object whose jsonrpc member is the string literal 2.0, whose id member is
string, number or null, whose method member is a string and whose params
member is an object; extra members elsewhere are permitted and params is
passed through untouched. Any failure is reported as none. -/
def parseRequest (j : Json) : Option RpcRequest :=
  match j with
  | .obj fields =>
      match List.lookup "jsonrpc" fields, List.lookup "id" fields,
            List.lookup "method" fields, List.lookup "params" fields with
      | some (.str ver), some idj, some (.str m), some (.obj ps) =>
          if ver = "2.0" then
            (parseId idj).map (fun i => { id := i, method := m, params := ps })
          else none
      | _, _, _, _ => none
  | _ => none

/-- The closed set of valid method names (apiSchema.methods). -/
inductive Method where
  | econConf : Method
  | activeChains : Method
  | confirmations : Method
  | burnStatus : Method
deriving Repr, DecidableEq

/-- Method-name resolution against apiSchema.methods. -/
def parseMethod (s : String) : Option Method :=
  if s = "get_econConf" then some .econConf
  else if s = "get_activeChains" then some .activeChains
  else if s = "get_confirmations" then some .confirmations
  else if s = "get_burnStatus" then some .burnStatus
  else none

/-- The getEconConf handler: validate params against chainIdOnlyParam,
answering invalidParamsError with the request id on failure, otherwise look
up the composite key econConf chainId and wrap the value (null when absent)
in a success response. -/
def getEconConf (store : Store) (id : RpcId)
    (params : List (String × Json)) : HttpResponse :=
  match chainIdOnlyParam params with
  | none => invalidParamsError id
  | some chainId =>
      jsonRpcResponse ((store [.s "econConf", .n chainId]).getD .null) id

/-- The getActiveChains handler: no params inspection at all; look up the
key chains and wrap the value (null when absent) in a success response. -/
def getActiveChains (store : Store) (id : RpcId) : HttpResponse :=
  jsonRpcResponse ((store [.s "chains"]).getD .null) id

/-- The monolithic getConfirmations handler: validate params against
chainIdOnlyParam, answering invalidParamsError with the request id on
failure, otherwise look up the composite key confirmations chainId and wrap
the value (null when absent) in a success response. -/
def getConfirmations (store : Store) (id : RpcId)
    (params : List (String × Json)) : HttpResponse :=
  match chainIdOnlyParam params with
  | none => invalidParamsError id
  | some chainId =>
      jsonRpcResponse ((store [.s "confirmations", .n chainId]).getD .null) id

/-- The getBurnStatus handler: validate params against getBurnStatusParam,
answering invalidParamsError with the request id on failure, otherwise look
up the composite key status hash and wrap the value (null when absent) in a
success response. -/
def getBurnStatus (store : Store) (id : RpcId)
    (params : List (String × Json)) : HttpResponse :=
  match getBurnStatusParam params with
  | none => invalidParamsError id
  | some hash =>
      jsonRpcResponse ((store [.s "status", .s hash]).getD .null) id

/-- One inbound request as the handler sees it: the remote hostname, the
current time, and the request body after JSON decoding (none for a missing
body or a body that is not well-formed JSON). -/
structure HandlerInput where
  host : String
  now : Nat
  body : Option Json
deriving Repr

/-- The request pipeline (the handler of vertinfo.ts): rate gate first,
answering rateLimitError and leaving the map untouched on rejection;
otherwise the current time is recorded for the host, then a missing or
malformed body yields badParseError, a body failing envelope validation
yields badParseError, an unrecognized method yields badMethodError, and
otherwise the request is dispatched to its method handler. Returns the
updated rate map along with the response. -/
def handler (store : Store) (m : RateMap) (inp : HandlerInput) :
    RateMap × HttpResponse :=
  if rateLimit m inp.now inp.host then (m, rateLimitError)
  else
    let m1 := setTime inp.host inp.now m
    match inp.body with
    | none => (m1, badParseError)
    | some j =>
        match parseRequest j with
        | none => (m1, badParseError)
        | some req =>
            match parseMethod req.method with
            | none => (m1, badMethodError)
            | some mth =>
                match mth with
                | .econConf => (m1, getEconConf store req.id req.params)
                | .activeChains => (m1, getActiveChains store req.id)
                | .confirmations => (m1, getConfirmations store req.id req.params)
                | .burnStatus => (m1, getBurnStatus store req.id req.params)

/-- Modelled from the spec: the invalidParams builder of lib/errors/mod.ts,
which is not present under src; per the error taxonomy it is the
invalid-params error, JSON-RPC code -32602, HTTP 500, carrying the request
id, with the same message as the observed monolith. -/
def errorInvalidParams (id : RpcId) : HttpResponse :=
  jsonRpcError (-32602) "Invalid params." 500 (some id)

/-- Modelled from the spec: the response builder of lib/jsonRpc/mod.ts,
which is not present under src; per the ResponseBuilder contract it emits
HTTP 200 with a result member serialized through the recursive hex
transform for arbitrary-precision integers, echoing the request id. -/
def jsonRpcResponseModular (result : RichValue) (id : RpcId) : HttpResponse :=
  { status := 200,
    body := { result := some (applyReplacer result),
              error := none,
              id := id } }

/-- Modelled from the spec: the chainIdOnlyParam schema of
lib/schemas/mod.ts, which is not present under src; per the ParamValidator
contract it requires a chainId member of number type on the params object. -/
def chainIdOnlyParamModular (params : List (String × Json)) : Option Int :=
  match List.lookup "chainId" params with
  | some (.num n) => some n
  | _ => none

/-- The standalone getConfirmations handler of
src/lib/methods/getConfirmations.ts, built on the modular schema, error and
response modules: validate params, answering the invalid-params error with
the request id on failure, otherwise look up the composite key
confirmations chainId and wrap the value (null when absent) in a success
response. -/
def getConfirmationsModular (store : Store) (id : RpcId)
    (params : List (String × Json)) : HttpResponse :=
  match chainIdOnlyParamModular params with
  | none => errorInvalidParams id
  | some chainId =>
      jsonRpcResponseModular ((store [.s "confirmations", .n chainId]).getD .null) id

/-- Sequential processing of a list of inbound requests, threading the
rate-limit map through the pipeline and collecting the responses. -/
def runSeq (store : Store) (m : RateMap) :
    List HandlerInput → RateMap × List HttpResponse
  | [] => (m, [])
  | inp :: rest =>
      let step := handler store m inp
      let tail := runSeq store step.1 rest
      (tail.1, step.2 :: tail.2)

/-- A lowercase hexadecimal digit character. -/
def isHexLowerChar (c : Char) : Bool :=
  (decide (48 ≤ c.toNat) && decide (c.toNat ≤ 57)) ||
  (decide (97 ≤ c.toNat) && decide (c.toNat ≤ 102))

/-- Whether a response body carries exactly one of the result and error
members. -/
def exactlyOneOf (b : RpcResponseObj) : Bool :=
  (b.result.isSome && b.error.isNone) || (b.result.isNone && b.error.isSome)

theorem setTime_lookup (host : String) (t : Nat) (m : RateMap) :
    List.lookup host (setTime host t m) = some t := by
  induction m with
  | nil => simp [setTime, List.lookup]
  | cons p rest ih =>
    obtain ⟨h, v⟩ := p
    by_cases hh : h = host
    · simp [setTime, hh, List.lookup]
    · have hdec : (host == h) = false := by
        rw [beq_eq_false_iff_ne]
        exact fun hc => hh hc.symm
      simp [setTime, hh, List.lookup, hdec, ih]

theorem any_attach {α : Type} (l : List α) (p : α → Bool) :
    (l.attach.any fun e => p e.1) = l.any p := by
  rcases h : l.any p with hf | ht
  · rw [List.any_eq_false] at h ⊢
    exact fun e _ => h e.1 e.2
  · rw [List.any_eq_true] at h ⊢
    obtain ⟨x, hx, hpx⟩ := h
    exact ⟨⟨x, hx⟩, List.mem_attach l ⟨x, hx⟩, hpx⟩

theorem applyReplacer_arr (elems : List RichValue) :
    applyReplacer (.arr elems) = .arr (elems.map applyReplacer) := by
  rw [applyReplacer]
  rw [List.attach_map_val]

theorem applyReplacer_obj (fields : List (String × RichValue)) :
    applyReplacer (.obj fields) =
      .obj (fields.map fun f => (f.1, applyReplacer f.2)) := by
  rw [applyReplacer]
  congr 1
  exact List.attach_map_val fields (fun p => (p.1, applyReplacer p.2))

theorem hasBigint_arr (elems : List RichValue) :
    hasBigint (.arr elems) = elems.any hasBigint := by
  rw [hasBigint]
  exact any_attach elems hasBigint

theorem hasBigint_obj (fields : List (String × RichValue)) :
    hasBigint (.obj fields) = fields.any fun f => hasBigint f.2 := by
  rw [hasBigint]
  exact any_attach fields (fun f => hasBigint f.2)

theorem hexChar_lower (k : Nat) (hk : k < 16) :
    isHexLowerChar (hexChar k) = true := by
  interval_cases k <;> decide

theorem natToHexAux_lower (fuel n : Nat) :
    ∀ c ∈ natToHexAux fuel n, isHexLowerChar c = true := by
  induction fuel generalizing n with
  | zero => intro c hc; simp [natToHexAux] at hc
  | succ fuel ih =>
    intro c hc
    rw [natToHexAux] at hc
    by_cases hn : n = 0
    · simp [hn] at hc
    · rw [if_neg hn, List.mem_append] at hc
      rcases hc with hc | hc
      · exact ih (n / 16) c hc
      · rw [List.mem_singleton] at hc
        subst hc
        exact hexChar_lower (n % 16) (Nat.mod_lt n (by omega))

theorem natToHex_lower (n : Nat) :
    ∀ c ∈ (natToHex n).data, isHexLowerChar c = true := by
  intro c hc
  rw [natToHex] at hc
  by_cases hn : n = 0
  · simp [hn] at hc
    subst hc
    decide
  · rw [if_neg hn] at hc
    exact natToHexAux_lower n n c hc

theorem hasBigint_applyReplacer (v : RichValue) :
    hasBigint (applyReplacer v) = false := by
  have H : ∀ n (v : RichValue), sizeOf v ≤ n →
      hasBigint (applyReplacer v) = false := by
    intro n
    induction n with
    | zero =>
      intro v hv
      cases v <;> simp at hv
    | succ n ih =>
      intro v hv
      cases v with
      | null => rw [applyReplacer, hasBigint]
      | bool b => rw [applyReplacer, hasBigint]
      | num k => rw [applyReplacer, hasBigint]
      | bigint b => rw [applyReplacer, hasBigint]
      | str s => rw [applyReplacer, hasBigint]
      | arr elems =>
        rw [applyReplacer_arr, hasBigint_arr, List.any_map, List.any_eq_false]
        intro x hx
        have hs := List.sizeOf_lt_of_mem hx
        have hspec : sizeOf (RichValue.arr elems) = 1 + sizeOf elems := by
          simp
        have hx0 : hasBigint (applyReplacer x) = false := ih x (by omega)
        simp [Function.comp, hx0]
      | obj fields =>
        rw [applyReplacer_obj, hasBigint_obj, List.any_map, List.any_eq_false]
        intro f hf
        have hs := List.sizeOf_lt_of_mem hf
        have hspec : sizeOf (RichValue.obj fields) = 1 + sizeOf fields := by
          simp
        have hf2 : sizeOf f.2 < sizeOf f := by
          obtain ⟨k, w⟩ := f
          simp only [Prod.mk.sizeOf_spec]
          omega
        have hx0 : hasBigint (applyReplacer f.2) = false := ih f.2 (by omega)
        simp [Function.comp, hx0]
  exact H (sizeOf v) v le_rfl

theorem getEconConf_id (store : Store) (id : RpcId)
    (params : List (String × Json)) :
    (getEconConf store id params).body.id = id := by
  unfold getEconConf
  cases chainIdOnlyParam params <;> rfl

theorem getConfirmations_id (store : Store) (id : RpcId)
    (params : List (String × Json)) :
    (getConfirmations store id params).body.id = id := by
  unfold getConfirmations
  cases chainIdOnlyParam params <;> rfl

theorem getBurnStatus_id (store : Store) (id : RpcId)
    (params : List (String × Json)) :
    (getBurnStatus store id params).body.id = id := by
  unfold getBurnStatus
  cases getBurnStatusParam params <;> rfl

theorem getEconConf_oneOf (store : Store) (id : RpcId)
    (params : List (String × Json)) :
    exactlyOneOf (getEconConf store id params).body = true := by
  unfold getEconConf
  cases chainIdOnlyParam params <;> rfl

theorem getConfirmations_oneOf (store : Store) (id : RpcId)
    (params : List (String × Json)) :
    exactlyOneOf (getConfirmations store id params).body = true := by
  unfold getConfirmations
  cases chainIdOnlyParam params <;> rfl

theorem getBurnStatus_oneOf (store : Store) (id : RpcId)
    (params : List (String × Json)) :
    exactlyOneOf (getBurnStatus store id params).body = true := by
  unfold getBurnStatus
  cases getBurnStatusParam params <;> rfl

theorem handler_rejected (store : Store) (m : RateMap) (inp : HandlerInput)
    (hr : rateLimit m inp.now inp.host = true) :
    handler store m inp = (m, rateLimitError) := by
  unfold handler
  simp [hr]

theorem handler_noBody (store : Store) (m : RateMap) (inp : HandlerInput)
    (hr : rateLimit m inp.now inp.host = false) (hb : inp.body = none) :
    handler store m inp = (setTime inp.host inp.now m, badParseError) := by
  unfold handler
  simp [hr, hb]

theorem handler_badEnvelope (store : Store) (m : RateMap) (inp : HandlerInput)
    (j : Json) (hr : rateLimit m inp.now inp.host = false)
    (hb : inp.body = some j) (hp : parseRequest j = none) :
    handler store m inp = (setTime inp.host inp.now m, badParseError) := by
  unfold handler
  simp [hr, hb, hp]

theorem handler_unknownMethod (store : Store) (m : RateMap)
    (inp : HandlerInput) (j : Json) (req : RpcRequest)
    (hr : rateLimit m inp.now inp.host = false)
    (hb : inp.body = some j) (hp : parseRequest j = some req)
    (hm : parseMethod req.method = none) :
    handler store m inp = (setTime inp.host inp.now m, badMethodError) := by
  unfold handler
  simp [hr, hb, hp, hm]

theorem handler_dispatch (store : Store) (m : RateMap)
    (inp : HandlerInput) (j : Json) (req : RpcRequest) (mth : Method)
    (hr : rateLimit m inp.now inp.host = false)
    (hb : inp.body = some j) (hp : parseRequest j = some req)
    (hm : parseMethod req.method = some mth) :
    handler store m inp = (setTime inp.host inp.now m,
      match mth with
      | .econConf => getEconConf store req.id req.params
      | .activeChains => getActiveChains store req.id
      | .confirmations => getConfirmations store req.id req.params
      | .burnStatus => getBurnStatus store req.id req.params) := by
  unfold handler
  simp [hr, hb, hp, hm]
  cases mth <;> rfl

theorem handler_admitted_map (store : Store) (m : RateMap)
    (inp : HandlerInput) (hadm : rateLimit m inp.now inp.host = false) :
    (handler store m inp).1 = setTime inp.host inp.now m := by
  cases hb : inp.body with
  | none => rw [handler_noBody store m inp hadm hb]
  | some j =>
    cases hp : parseRequest j with
    | none => rw [handler_badEnvelope store m inp j hadm hb hp]
    | some req =>
      cases hm : parseMethod req.method with
      | none => rw [handler_unknownMethod store m inp j req hadm hb hp hm]
      | some mth =>
        rw [handler_dispatch store m inp j req mth hadm hb hp hm]

/-- C4: for every admitted request whose body is missing, is not well-formed
JSON, or decodes to a value that fails JSON-RPC envelope validation, the
pipeline answers the single undifferentiated parse error: JSON-RPC code
-32700, id null, HTTP status 500, with no result member, the same error kind
for bad JSON and bad envelope shape. -/
theorem claim4_parse_error_uniform
    (store : Store) (m : RateMap) (inp : HandlerInput)
    (hadm : rateLimit m inp.now inp.host = false)
    (hbad : inp.body = none ∨ ∃ j, inp.body = some j ∧ parseRequest j = none) :
    (handler store m inp).2.status = 500 ∧
    (handler store m inp).2.body.error =
      some { code := -32700, message := "Parse error." } ∧
    (handler store m inp).2.body.id = RpcId.null ∧
    (handler store m inp).2.body.result = none := by
  have hresp : (handler store m inp).2 = badParseError := by
    rcases hbad with hb | ⟨j, hb, hpr⟩
    · rw [handler_noBody store m inp hadm hb]
    · rw [handler_badEnvelope store m inp j hadm hb hpr]
  rw [hresp]
  exact ⟨rfl, rfl, rfl, rfl⟩

/-- C4 witness: a concrete admitted request with a missing or malformed
body receives the parse error. -/
theorem claim4_parse_error_uniform_witness :
    (handler (fun _ => none) [] ⟨"h", 5, none⟩).2.status = 500 ∧
    (handler (fun _ => none) [] ⟨"h", 5, none⟩).2.body.error =
      some { code := -32700, message := "Parse error." } ∧
    (handler (fun _ => none) [] ⟨"h", 5, none⟩).2.body.id = RpcId.null ∧
    (handler (fun _ => none) [] ⟨"h", 5, none⟩).2.body.result = none :=
  claim4_parse_error_uniform (fun _ => none) [] ⟨"h", 5, none⟩ rfl (Or.inl rfl)

/-- C5: a well-formed admitted request to get_econConf or get_confirmations
whose params object has no chainId member of number type receives the
invalid-params error: code -32602, HTTP 500, carrying the original request
id. -/
theorem claim5_invalid_chainid
    (store : Store) (m : RateMap) (inp : HandlerInput) (j : Json)
    (req : RpcRequest)
    (hadm : rateLimit m inp.now inp.host = false)
    (hb : inp.body = some j) (hp : parseRequest j = some req)
    (hm : req.method = "get_econConf" ∨ req.method = "get_confirmations")
    (hc : ∀ n : Int, List.lookup "chainId" req.params ≠ some (Json.num n)) :
    (handler store m inp).2.status = 500 ∧
    (handler store m inp).2.body.error =
      some { code := -32602, message := "Invalid params." } ∧
    (handler store m inp).2.body.id = req.id ∧
    (handler store m inp).2.body.result = none := by
  have hcp : chainIdOnlyParam req.params = none := by
    unfold chainIdOnlyParam
    cases hres : List.lookup "chainId" req.params with
    | none => rfl
    | some v =>
      cases v with
      | num n => exact absurd hres (hc n)
      | null => rfl
      | bool b => rfl
      | str s => rfl
      | arr es => rfl
      | obj fs => rfl
  have hresp : (handler store m inp).2 = invalidParamsError req.id := by
    rcases hm with hm | hm
    · have hpm : parseMethod req.method = some Method.econConf := by
        rw [hm]; decide
      rw [handler_dispatch store m inp j req Method.econConf hadm hb hp hpm]
      show getEconConf store req.id req.params = _
      unfold getEconConf
      rw [hcp]
    · have hpm : parseMethod req.method = some Method.confirmations := by
        rw [hm]; decide
      rw [handler_dispatch store m inp j req Method.confirmations hadm hb hp hpm]
      show getConfirmations store req.id req.params = _
      unfold getConfirmations
      rw [hcp]
  rw [hresp]
  exact ⟨rfl, rfl, rfl, rfl⟩

/-- C5 witness: a concrete get_econConf request whose chainId is a
string receives the invalid-params error carrying its id. -/
theorem claim5_invalid_chainid_witness :
    (handler (fun _ => none) []
      ⟨"h", 5, some (Json.obj [("jsonrpc", Json.str "2.0"),
        ("id", Json.num 9), ("method", Json.str "get_econConf"),
        ("params", Json.obj [("chainId", Json.str "5")])])⟩).2.status = 500 ∧
    (handler (fun _ => none) []
      ⟨"h", 5, some (Json.obj [("jsonrpc", Json.str "2.0"),
        ("id", Json.num 9), ("method", Json.str "get_econConf"),
        ("params", Json.obj [("chainId", Json.str "5")])])⟩).2.body.error =
      some { code := -32602, message := "Invalid params." } ∧
    (handler (fun _ => none) []
      ⟨"h", 5, some (Json.obj [("jsonrpc", Json.str "2.0"),
        ("id", Json.num 9), ("method", Json.str "get_econConf"),
        ("params", Json.obj [("chainId", Json.str "5")])])⟩).2.body.id =
      RpcId.num 9 ∧
    (handler (fun _ => none) []
      ⟨"h", 5, some (Json.obj [("jsonrpc", Json.str "2.0"),
        ("id", Json.num 9), ("method", Json.str "get_econConf"),
        ("params", Json.obj [("chainId", Json.str "5")])])⟩).2.body.result =
      none :=
  claim5_invalid_chainid (fun _ => none) [] _ _
    { id := RpcId.num 9, method := "get_econConf",
      params := [("chainId", Json.str "5")] }
    rfl rfl rfl (Or.inl rfl) (by intro n h; simp [List.lookup] at h)

/-- C7: for every well-formed request with valid params for its method, a
store lookup that finds nothing yields a success response with HTTP 200 and
result null, never an error: this holds for each of the four method
handlers. -/
theorem claim7_absence_is_null_result :
    (∀ (store : Store) (id : RpcId) (params : List (String × Json))
        (chainId : Int),
        chainIdOnlyParam params = some chainId →
        store [KeyPart.s "econConf", KeyPart.n chainId] = none →
        getEconConf store id params =
          { status := 200,
            body := { result := some RichValue.null, error := none, id := id } }) ∧
    (∀ (store : Store) (id : RpcId) (params : List (String × Json))
        (chainId : Int),
        chainIdOnlyParam params = some chainId →
        store [KeyPart.s "confirmations", KeyPart.n chainId] = none →
        getConfirmations store id params =
          { status := 200,
            body := { result := some RichValue.null, error := none, id := id } }) ∧
    (∀ (store : Store) (id : RpcId) (params : List (String × Json))
        (hash : String),
        getBurnStatusParam params = some hash →
        store [KeyPart.s "status", KeyPart.s hash] = none →
        getBurnStatus store id params =
          { status := 200,
            body := { result := some RichValue.null, error := none, id := id } }) ∧
    (∀ (store : Store) (id : RpcId),
        store [KeyPart.s "chains"] = none →
        getActiveChains store id =
          { status := 200,
            body := { result := some RichValue.null, error := none, id := id } }) := by
  refine ⟨?_, ?_, ?_, ?_⟩
  · intro store id params chainId hcp hst
    unfold getEconConf
    rw [hcp]
    show jsonRpcResponse
      ((store [KeyPart.s "econConf", KeyPart.n chainId]).getD RichValue.null)
      id = _
    rw [hst]
    simp [jsonRpcResponse, applyReplacer]
  · intro store id params chainId hcp hst
    unfold getConfirmations
    rw [hcp]
    show jsonRpcResponse
      ((store [KeyPart.s "confirmations", KeyPart.n chainId]).getD RichValue.null)
      id = _
    rw [hst]
    simp [jsonRpcResponse, applyReplacer]
  · intro store id params hash hcp hst
    unfold getBurnStatus
    rw [hcp]
    show jsonRpcResponse
      ((store [KeyPart.s "status", KeyPart.s hash]).getD RichValue.null)
      id = _
    rw [hst]
    simp [jsonRpcResponse, applyReplacer]
  · intro store id hst
    unfold getActiveChains
    rw [hst]
    simp [jsonRpcResponse, applyReplacer]

/-- C7 witness: a concrete getEconConf request against an empty store
receives HTTP 200 with a null result. -/
theorem claim7_absence_is_null_result_witness :
    getEconConf (fun _ => none) (RpcId.num 3) [("chainId", Json.num 5)] =
      { status := 200,
        body := { result := some RichValue.null, error := none,
                  id := RpcId.num 3 } } :=
  claim7_absence_is_null_result.1 (fun _ => none) (RpcId.num 3)
    [("chainId", Json.num 5)] 5 rfl rfl

/-- C8: for every admitted well-formed request whose method is
get_activeChains, the response does not depend on the params object at all,
never errors on it, and is exactly the success wrapping of the chains
lookup. -/
theorem claim8_activechains_ignores_params
    (store : Store) (m : RateMap) (host : String) (now : Nat)
    (j1 j2 : Json) (req1 req2 : RpcRequest)
    (hadm : rateLimit m now host = false)
    (hp1 : parseRequest j1 = some req1) (hp2 : parseRequest j2 = some req2)
    (hm1 : req1.method = "get_activeChains")
    (hm2 : req2.method = "get_activeChains")
    (hid : req1.id = req2.id) :
    (handler store m ⟨host, now, some j1⟩).2 =
      (handler store m ⟨host, now, some j2⟩).2 ∧
    (handler store m ⟨host, now, some j1⟩).2 =
      jsonRpcResponse ((store [KeyPart.s "chains"]).getD .null) req1.id := by
  have hpm1 : parseMethod req1.method = some Method.activeChains := by
    rw [hm1]; decide
  have hpm2 : parseMethod req2.method = some Method.activeChains := by
    rw [hm2]; decide
  have h1 := handler_dispatch store m ⟨host, now, some j1⟩ j1 req1
    Method.activeChains hadm rfl hp1 hpm1
  have h2 := handler_dispatch store m ⟨host, now, some j2⟩ j2 req2
    Method.activeChains hadm rfl hp2 hpm2
  rw [h1, h2]
  constructor
  · show getActiveChains store req1.id = getActiveChains store req2.id
    rw [hid]
  · show getActiveChains store req1.id = _
    unfold getActiveChains
    rfl

/-- C8 witness: two concrete get_activeChains requests with different
params objects receive the same response, the chains lookup success. -/
theorem claim8_activechains_ignores_params_witness :
    (handler (fun _ => none) []
      ⟨"h", 5, some (Json.obj [("jsonrpc", Json.str "2.0"),
        ("id", Json.num 4), ("method", Json.str "get_activeChains"),
        ("params", Json.obj [])])⟩).2 =
      (handler (fun _ => none) []
        ⟨"h", 5, some (Json.obj [("jsonrpc", Json.str "2.0"),
          ("id", Json.num 4), ("method", Json.str "get_activeChains"),
          ("params", Json.obj [("junk", Json.num 7)])])⟩).2 ∧
    (handler (fun _ => none) []
      ⟨"h", 5, some (Json.obj [("jsonrpc", Json.str "2.0"),
        ("id", Json.num 4), ("method", Json.str "get_activeChains"),
        ("params", Json.obj [])])⟩).2 =
      jsonRpcResponse (((fun _ => none : Store) [KeyPart.s "chains"]).getD .null)
        (RpcId.num 4) :=
  claim8_activechains_ignores_params (fun _ => none) [] "h" 5 _ _
    { id := RpcId.num 4, method := "get_activeChains", params := [] }
    { id := RpcId.num 4, method := "get_activeChains",
      params := [("junk", Json.num 7)] }
    rfl rfl rfl rfl rfl rfl

/-- C10: the standalone getConfirmations handler of the modular variant
returns, for every store state, id and params, exactly the response of the
inline getConfirmations of the monolithic server. -/
theorem claim10_modular_getConfirmations_refines
    (store : Store) (id : RpcId) (params : List (String × Json)) :
    getConfirmationsModular store id params =
      getConfirmations store id params := by
  unfold getConfirmationsModular getConfirmations chainIdOnlyParamModular
    chainIdOnlyParam errorInvalidParams invalidParamsError
    jsonRpcResponseModular jsonRpcResponse
  rfl

/-- C1 counterexample: a well-formed admitted request with id 1 and the
unknown method get_nonexistent receives the method-not-found error with
code -32601 and HTTP 404, but the response id is null, not the request id
as the claim states. -/
theorem claim1_counterexample :
    (parseRequest (Json.obj [("jsonrpc", Json.str "2.0"),
        ("id", Json.num 1), ("method", Json.str "get_nonexistent"),
        ("params", Json.obj [])])).map (fun r => r.id) =
      some (RpcId.num 1) ∧
    (handler (fun _ => none) []
      ⟨"h", 5, some (Json.obj [("jsonrpc", Json.str "2.0"),
        ("id", Json.num 1), ("method", Json.str "get_nonexistent"),
        ("params", Json.obj [])])⟩).2.status = 404 ∧
    (handler (fun _ => none) []
      ⟨"h", 5, some (Json.obj [("jsonrpc", Json.str "2.0"),
        ("id", Json.num 1), ("method", Json.str "get_nonexistent"),
        ("params", Json.obj [])])⟩).2.body.error =
      some { code := -32601, message := "Method not found." } ∧
    (handler (fun _ => none) []
      ⟨"h", 5, some (Json.obj [("jsonrpc", Json.str "2.0"),
        ("id", Json.num 1), ("method", Json.str "get_nonexistent"),
        ("params", Json.obj [])])⟩).2.body.id ≠ RpcId.num 1 := by
  exact ⟨rfl, rfl, rfl, by decide⟩

/-- C1 amended: for every admitted request whose envelope parses but whose
method string is none of the four registered names, the response is the
method-not-found error with JSON-RPC code -32601 and HTTP 404 and no result
member, carrying id null rather than the request id (the source builds
badMethodError without an id). -/
theorem claim1_amended_unknown_method
    (store : Store) (m : RateMap) (inp : HandlerInput) (j : Json)
    (req : RpcRequest)
    (hadm : rateLimit m inp.now inp.host = false)
    (hb : inp.body = some j) (hp : parseRequest j = some req)
    (h1 : req.method ≠ "get_econConf")
    (h2 : req.method ≠ "get_activeChains")
    (h3 : req.method ≠ "get_confirmations")
    (h4 : req.method ≠ "get_burnStatus") :
    (handler store m inp).2.status = 404 ∧
    (handler store m inp).2.body.error =
      some { code := -32601, message := "Method not found." } ∧
    (handler store m inp).2.body.id = RpcId.null ∧
    (handler store m inp).2.body.result = none := by
  have hm : parseMethod req.method = none := by
    unfold parseMethod
    rw [if_neg h1, if_neg h2, if_neg h3, if_neg h4]
  rw [handler_unknownMethod store m inp j req hadm hb hp hm]
  exact ⟨rfl, rfl, rfl, rfl⟩

/-- C1 amended witness: a concrete admitted request with the unknown
method get_unknown receives -32601, HTTP 404, and id null. -/
theorem claim1_amended_unknown_method_witness :
    (handler (fun _ => none) []
      ⟨"w", 3, some (Json.obj [("jsonrpc", Json.str "2.0"),
        ("id", Json.num 2), ("method", Json.str "get_unknown"),
        ("params", Json.obj [])])⟩).2.status = 404 ∧
    (handler (fun _ => none) []
      ⟨"w", 3, some (Json.obj [("jsonrpc", Json.str "2.0"),
        ("id", Json.num 2), ("method", Json.str "get_unknown"),
        ("params", Json.obj [])])⟩).2.body.error =
      some { code := -32601, message := "Method not found." } ∧
    (handler (fun _ => none) []
      ⟨"w", 3, some (Json.obj [("jsonrpc", Json.str "2.0"),
        ("id", Json.num 2), ("method", Json.str "get_unknown"),
        ("params", Json.obj [])])⟩).2.body.id = RpcId.null ∧
    (handler (fun _ => none) []
      ⟨"w", 3, some (Json.obj [("jsonrpc", Json.str "2.0"),
        ("id", Json.num 2), ("method", Json.str "get_unknown"),
        ("params", Json.obj [])])⟩).2.body.result = none :=
  claim1_amended_unknown_method (fun _ => none) [] _ _
    { id := RpcId.num 2, method := "get_unknown", params := [] }
    rfl rfl rfl (by decide) (by decide) (by decide) (by decide)

/-- C2 counterexample: with a recorded timestamp of 0 for identity a, a
request at time 1 is admitted by the gate even though a timestamp is
recorded and the elapsed time 1 is far below the window, contradicting the
claimed admit-iff condition. -/
theorem claim2_counterexample :
    rateLimit [("a", 0)] 1 "a" = false ∧
    List.lookup "a" [("a", 0)] ≠ (none : Option Nat) ∧
    ¬ ((window : Int) ≤ (1 : Int) - ((0 : Nat) : Int)) := by
  refine ⟨rfl, by decide, by decide⟩

/-- C2 amended: a request is admitted iff the identity has no recorded
timestamp, or the recorded timestamp is 0 (the source tests the lookup for
JS falsiness, so a zero timestamp acts as absent), or now minus the
timestamp is at least the window; a rejected request receives JSON-RPC code
-32005 with HTTP 429; and after an admitted request, a second request of
the same identity at least one window later is admitted. -/
theorem claim2_amended_rate_gate :
    (∀ (m : RateMap) (now : Nat) (host : String),
        rateLimit m now host = false ↔
          (List.lookup host m = none ∨ List.lookup host m = some 0 ∨
            ∃ t, List.lookup host m = some t ∧
              (window : Int) ≤ (now : Int) - (t : Int))) ∧
    (∀ (store : Store) (m : RateMap) (inp : HandlerInput),
        rateLimit m inp.now inp.host = true →
        (handler store m inp).2.status = 429 ∧
        (handler store m inp).2.body.error =
          some { code := -32005, message := "Rate limited." }) ∧
    (∀ (store : Store) (m : RateMap) (host : String) (t1 t2 : Nat)
        (b : Option Json),
        rateLimit m t1 host = false →
        (t1 : Int) + (window : Int) ≤ (t2 : Int) →
        rateLimit (handler store m ⟨host, t1, b⟩).1 t2 host = false) := by
  refine ⟨?_, ?_, ?_⟩
  · intro m now host
    unfold rateLimit rateLimitW
    cases hl : List.lookup host m with
    | none => simp
    | some t =>
      by_cases ht : t = 0
      · subst ht
        simp
      · show (if t = 0 then false
            else decide ((now : Int) - (t : Int) < ((window : Nat) : Int))) =
            false ↔ _
        rw [if_neg ht, decide_eq_false_iff_not]
        constructor
        · intro h
          exact Or.inr (Or.inr ⟨t, rfl, by omega⟩)
        · rintro (h | h | ⟨u, hu, hle⟩)
          · exact absurd h (by simp)
          · rw [Option.some_inj] at h
            exact absurd h ht
          · rw [Option.some_inj] at hu
            subst hu
            omega
  · intro store m inp hrej
    rw [handler_rejected store m inp hrej]
    exact ⟨rfl, rfl⟩
  · intro store m host t1 t2 b hadm hsep
    rw [handler_admitted_map store m ⟨host, t1, b⟩ hadm]
    unfold rateLimit rateLimitW
    rw [setTime_lookup]
    show (if t1 = 0 then false
      else decide ((t2 : Int) - (t1 : Int) < ((window : Nat) : Int))) = false
    by_cases ht1 : t1 = 0
    · rw [if_pos ht1]
    · rw [if_neg ht1, decide_eq_false_iff_not]
      omega

/-- C2 amended witness: a concrete rejected request receives code -32005
with HTTP 429, and a concrete pair of requests one window apart are both
admitted. -/
theorem claim2_amended_rate_gate_witness :
    ((handler (fun _ => none) [("a", 5)] ⟨"a", 6, none⟩).2.status = 429 ∧
      (handler (fun _ => none) [("a", 5)] ⟨"a", 6, none⟩).2.body.error =
        some { code := -32005, message := "Rate limited." }) ∧
    rateLimit (handler (fun _ => none) [] ⟨"a", 7, none⟩).1 1007 "a" = false :=
  ⟨claim2_amended_rate_gate.2.1 (fun _ => none) [("a", 5)] ⟨"a", 6, none⟩
      (by decide),
    claim2_amended_rate_gate.2.2 (fun _ => none) [] "a" 7 1007 none
      (by decide) (by decide)⟩

/-- C3 counterexample: the identity a is admitted at time 0, the pipeline
records timestamp 0, and a follow-up request at time 1 — strictly faster
than the window after the admitted one — is admitted rather than rejected,
because the source treats the recorded 0 as falsy. -/
theorem claim3_counterexample :
    rateLimit [] 0 "a" = false ∧
    (handler (fun _ => none) [] ⟨"a", 0, none⟩).1 = [("a", 0)] ∧
    ((1 : Int) - (0 : Int) < (window : Int)) ∧
    rateLimit [("a", 0)] 1 "a" = false ∧
    (handler (fun _ => none) [("a", 0)] ⟨"a", 1, none⟩).2.status ≠ 429 := by
  refine ⟨rfl, rfl, by decide, rfl, by decide⟩

/-- C3 amended: the pipeline leaves the rate map untouched on rejection and
records the current time exactly on admission; and provided the admitted
request was recorded at a nonzero time, every subsequent sequence of
requests of that identity arriving strictly less than one window after the
admitted time is answered entirely with rate-limit rejections, the map
never changing. -/
theorem claim3_amended_window_not_reset :
    (∀ (store : Store) (m : RateMap) (inp : HandlerInput),
        rateLimit m inp.now inp.host = true → (handler store m inp).1 = m) ∧
    (∀ (store : Store) (m : RateMap) (inp : HandlerInput),
        rateLimit m inp.now inp.host = false →
        (handler store m inp).1 = setTime inp.host inp.now m) ∧
    (∀ (store : Store) (m0 : RateMap) (host : String) (t0 : Nat)
        (b0 : Option Json),
        t0 ≠ 0 → rateLimit m0 t0 host = false →
        ∀ (inps : List HandlerInput),
          (∀ inp ∈ inps, inp.host = host ∧
            (inp.now : Int) - (t0 : Int) < (window : Int)) →
          runSeq store (handler store m0 ⟨host, t0, b0⟩).1 inps =
            ((handler store m0 ⟨host, t0, b0⟩).1,
              inps.map (fun _ => rateLimitError))) := by
  refine ⟨?_, ?_, ?_⟩
  · intro store m inp hrej
    rw [handler_rejected store m inp hrej]
  · intro store m inp hadm
    exact handler_admitted_map store m inp hadm
  · intro store m0 host t0 b0 ht0 hadm inps
    rw [handler_admitted_map store m0 ⟨host, t0, b0⟩ hadm]
    induction inps with
    | nil => intro _; rfl
    | cons inp rest ih =>
      intro hall
      have hin := hall inp (List.mem_cons_self inp rest)
      have hrej : rateLimit (setTime host t0 m0) inp.now inp.host = true := by
        rw [hin.1]
        unfold rateLimit rateLimitW
        rw [setTime_lookup]
        show (if t0 = 0 then false
          else decide ((inp.now : Int) - (t0 : Int) < ((window : Nat) : Int))) =
          true
        rw [if_neg ht0]
        exact decide_eq_true hin.2
      have ihr := ih (fun i hi => hall i (List.mem_cons_of_mem inp hi))
      rw [runSeq]
      rw [handler_rejected store (setTime host t0 m0) inp hrej]
      rw [ihr]
      rfl

/-- C3 amended witness: a concrete identity admitted at time 5 and flooding
at times 6 and 7 is rejected both times with the map unchanged. -/
theorem claim3_amended_window_not_reset_witness :
    runSeq (fun _ => none)
        (handler (fun _ => none) [] ⟨"a", 5, none⟩).1
        [⟨"a", 6, none⟩, ⟨"a", 7, none⟩] =
      ((handler (fun _ => none) [] ⟨"a", 5, none⟩).1,
        [rateLimitError, rateLimitError]) :=
  claim3_amended_window_not_reset.2.2 (fun _ => none) [] "a" 5 none
    (by decide) (by decide) [⟨"a", 6, none⟩, ⟨"a", 7, none⟩]
    (by
      intro inp hi
      simp only [List.mem_cons, List.not_mem_nil, or_false] at hi
      rcases hi with h | h <;> (subst h; exact ⟨rfl, by decide⟩))

/-- C9 counterexample: a request whose envelope parses with id 7 but whose
method is unknown receives a response whose id is null, not the request id,
so a response can carry null even when the request reached a parseable id. -/
theorem claim9_counterexample :
    (parseRequest (Json.obj [("jsonrpc", Json.str "2.0"),
        ("id", Json.num 7), ("method", Json.str "foo"),
        ("params", Json.obj [])])).map (fun r => r.id) =
      some (RpcId.num 7) ∧
    (handler (fun _ => none) []
      ⟨"k", 2, some (Json.obj [("jsonrpc", Json.str "2.0"),
        ("id", Json.num 7), ("method", Json.str "foo"),
        ("params", Json.obj [])])⟩).2.body.id ≠ RpcId.num 7 := by
  exact ⟨rfl, by decide⟩

/-- C9 amended: every response the pipeline emits contains exactly one of
the result and error members, and its id is attributed case by case: a
rate-limited response carries null, a parse-error response (missing or
malformed body, or envelope failure) carries null, a method-not-found
response carries null even though the request id was parsed, and every
dispatched request — whose response is an invalid-params error or a
success — echoes the id of its originating request. -/
theorem claim9_amended_response_invariant :
    (∀ (store : Store) (m : RateMap) (inp : HandlerInput),
        exactlyOneOf (handler store m inp).2.body = true) ∧
    (∀ (store : Store) (m : RateMap) (inp : HandlerInput),
        rateLimit m inp.now inp.host = true →
        (handler store m inp).2.body.id = RpcId.null) ∧
    (∀ (store : Store) (m : RateMap) (inp : HandlerInput),
        rateLimit m inp.now inp.host = false →
        (inp.body = none ∨ ∃ j, inp.body = some j ∧ parseRequest j = none) →
        (handler store m inp).2.body.id = RpcId.null) ∧
    (∀ (store : Store) (m : RateMap) (inp : HandlerInput) (j : Json)
        (req : RpcRequest),
        rateLimit m inp.now inp.host = false →
        inp.body = some j → parseRequest j = some req →
        parseMethod req.method = none →
        (handler store m inp).2.body.id = RpcId.null) ∧
    (∀ (store : Store) (m : RateMap) (inp : HandlerInput) (j : Json)
        (req : RpcRequest) (mth : Method),
        rateLimit m inp.now inp.host = false →
        inp.body = some j → parseRequest j = some req →
        parseMethod req.method = some mth →
        (handler store m inp).2.body.id = req.id) := by
  refine ⟨?_, ?_, ?_, ?_, ?_⟩
  · intro store m inp
    cases hr : rateLimit m inp.now inp.host with
    | true =>
      rw [handler_rejected store m inp hr]
      rfl
    | false =>
      cases hb : inp.body with
      | none =>
        rw [handler_noBody store m inp hr hb]
        rfl
      | some j =>
        cases hp : parseRequest j with
        | none =>
          rw [handler_badEnvelope store m inp j hr hb hp]
          rfl
        | some req =>
          cases hm : parseMethod req.method with
          | none =>
            rw [handler_unknownMethod store m inp j req hr hb hp hm]
            rfl
          | some mth =>
            rw [handler_dispatch store m inp j req mth hr hb hp hm]
            cases mth with
            | econConf => exact getEconConf_oneOf store req.id req.params
            | activeChains => rfl
            | confirmations =>
              exact getConfirmations_oneOf store req.id req.params
            | burnStatus => exact getBurnStatus_oneOf store req.id req.params
  · intro store m inp hr
    rw [handler_rejected store m inp hr]
    rfl
  · intro store m inp hr hbad
    rcases hbad with hb | ⟨j, hb, hp⟩
    · rw [handler_noBody store m inp hr hb]
      rfl
    · rw [handler_badEnvelope store m inp j hr hb hp]
      rfl
  · intro store m inp j req hr hb hp hm
    rw [handler_unknownMethod store m inp j req hr hb hp hm]
    rfl
  · intro store m inp j req mth hr hb hp hm
    rw [handler_dispatch store m inp j req mth hr hb hp hm]
    cases mth with
    | econConf => exact getEconConf_id store req.id req.params
    | activeChains => rfl
    | confirmations => exact getConfirmations_id store req.id req.params
    | burnStatus => exact getBurnStatus_id store req.id req.params

/-- C9 amended witness: a concrete rejected request carries id null while a
concrete dispatched get_activeChains request with id 11 has its id echoed
in the success response. -/
theorem claim9_amended_response_invariant_witness :
    (handler (fun _ => none) [("q", 3)] ⟨"q", 4, none⟩).2.body.id =
      RpcId.null ∧
    (handler (fun _ => none) []
      ⟨"q", 4, some (Json.obj [("jsonrpc", Json.str "2.0"),
        ("id", Json.num 11), ("method", Json.str "get_activeChains"),
        ("params", Json.obj [])])⟩).2.body.id = RpcId.num 11 :=
  ⟨claim9_amended_response_invariant.2.1 (fun _ => none) [("q", 3)]
      ⟨"q", 4, none⟩ (by decide),
    claim9_amended_response_invariant.2.2.2.2 (fun _ => none) [] _ _
      { id := RpcId.num 11, method := "get_activeChains", params := [] }
      Method.activeChains rfl rfl rfl (by decide)⟩

/-- C6: the success serializer replaces every arbitrary-precision integer,
recursively through nested arrays and object fields, by the lowercase
hexadecimal string prefixed with 0x; no bigint survives, the hex digits of
nonnegative values are lowercase hexadecimal characters, and a concrete
EconConf with baseFee 255 serializes with baseFee rendered as the string
0xff and the nested multiplier entries as hex strings too. -/
theorem claim6_bigint_hex_serialization :
    (∀ b : Int, applyReplacer (RichValue.bigint b) =
        RichValue.str ("0x" ++ bigintToHex b)) ∧
    (∀ elems, applyReplacer (RichValue.arr elems) =
        RichValue.arr (elems.map applyReplacer)) ∧
    (∀ fields, applyReplacer (RichValue.obj fields) =
        RichValue.obj (fields.map fun f => (f.1, applyReplacer f.2))) ∧
    (∀ v, hasBigint (applyReplacer v) = false) ∧
    (∀ b : Int, 0 ≤ b →
        ∀ c ∈ (bigintToHex b).data, isHexLowerChar c = true) ∧
    (∀ (result : RichValue) (id : RpcId),
        (jsonRpcResponse result id).body.result =
          some (applyReplacer result)) ∧
    ((jsonRpcResponse (RichValue.obj
        [("gasLimitMultiplier",
            RichValue.arr [RichValue.bigint 1, RichValue.bigint 2]),
         ("gasPriceMultiplier",
            RichValue.arr [RichValue.bigint 3, RichValue.bigint 4]),
         ("baseFee", RichValue.bigint 255)]) (RpcId.num 1)).body.result =
      some (RichValue.obj
        [("gasLimitMultiplier",
            RichValue.arr [RichValue.str "0x1", RichValue.str "0x2"]),
         ("gasPriceMultiplier",
            RichValue.arr [RichValue.str "0x3", RichValue.str "0x4"]),
         ("baseFee", RichValue.str "0xff")])) := by
  refine ⟨?_, applyReplacer_arr, applyReplacer_obj, hasBigint_applyReplacer,
    ?_, ?_, ?_⟩
  · intro b
    rw [applyReplacer]
  · intro b hb c hc
    unfold bigintToHex at hc
    rw [if_neg (by omega)] at hc
    exact natToHex_lower b.toNat c hc
  · intro result id
    rfl
  · show some (applyReplacer _) = _
    rw [applyReplacer_obj]
    simp only [List.map]
    rw [applyReplacer_arr, applyReplacer_arr]
    simp only [List.map]
    rw [applyReplacer, applyReplacer, applyReplacer, applyReplacer,
      applyReplacer]
    rfl

/-- C6 witness: the lowercase-hex conjunct applied at 255 shows the digit
f of its rendering is a lowercase hexadecimal character. -/
theorem claim6_bigint_hex_serialization_witness :
    isHexLowerChar (Char.ofNat 102) = true :=
  claim6_bigint_hex_serialization.2.2.2.2.1 255 (by decide)
    (Char.ofNat 102) (by decide)

end Vertinfo
